import Mathlib

/-!
Shallow embedding of the yourate-api rating handlers.

JavaScript numbers are modelled as exact rationals, strings as `String`,
absent or falsy string inputs as the empty string, and DynamoDB tables as
lists of rating records.  Fallible store lookups are modelled through an
explicit environment flag per query, mirroring the try/catch structure of
the handlers.
-/

namespace YouRate

/-- JS `v || d` on strings: the empty string is falsy. -/
def strOr (v d : String) : String := if v = "" then d else v

/-- One persisted rating record (DynamoDB item written by `handlePostRating`
in `src/ratings.js`). -/
structure RatingItem where
  channelId : String
  timestamp : String
  rating : ℚ
  comment : String
  channelTitle : String
  email : String
  ipAddress : String
  userAgent : String
  thumbnailUrl : Option String
  description : Option String
  profilePicture : Option (List (String × String))
deriving DecidableEq

/-- `profilePicture` value in a POST body: absent, a bare string, or a
structured object (modelled as an association list); `src/ratings.js` lines
296-304. -/
inductive PicVal where
  | absent : PicVal
  | picStr : String → PicVal
  | picObj : List (String × String) → PicVal
deriving DecidableEq

/-- Truthiness of `body.profilePicture`: objects are always truthy in JS,
the empty string is falsy. -/
def picTruthy : PicVal → Bool
  | .absent => false
  | .picStr s => !(s == "")
  | .picObj _ => true

/-- Normalisation of `profilePicture` before storage: a bare string becomes
a one-entry map under the key `default`; `src/ratings.js` lines 296-304. -/
def normalizePic : PicVal → Option (List (String × String))
  | .absent => none
  | .picStr s => if s == "" then none else some [("default", s)]
  | .picObj es => some es

/-- A parsed POST /ratings body plus request metadata.  The empty string
models an absent or empty (falsy) field; `rating = none` models an absent
or non-number `rating` value. -/
structure PostRequest where
  channelId : String
  channelTitle : String
  rating : Option ℚ
  comment : String
  email : String
  thumbnailUrl : String
  description : String
  profilePicture : PicVal
  sourceIp : String
  userAgent : String
deriving DecidableEq

/-- Response body shapes produced by the rating handlers. -/
inductive RespBody where
  | errBody : String → Option String → RespBody
  | createdBody : String → String → String → RespBody
deriving DecidableEq

/-- An API Gateway response (status code and JSON body; the constant CORS
headers are omitted). -/
structure ApiResp where
  statusCode : Nat
  body : RespBody
deriving DecidableEq

/-- `src/ratings.js` line 96:
`!rating || typeof rating !== 'number' || rating < 1 || rating > 5`. -/
def ratingInvalid : Option ℚ → Bool
  | none => true
  | some q => q == 0 || decide (q < 1) || decide (5 < q)

/-- A character allowed by `[^\s@]` in the email regex. -/
def cleanChar (c : Char) : Bool := !(c.isWhitespace || c == '@')

/-- The char list has a dot at some interior position (neither first nor
last); this is exactly when it matches `[^\s@]+\.[^\s@]+` given that all
characters are clean. -/
def interiorDot (cs : List Char) : Bool := ((cs.drop 1).dropLast).contains '.'

/-- Split a char list at every occurrence of `c` (the behaviour of JS
`split` with a one-character separator). -/
def splitOnChar (c : Char) : List Char → List (List Char)
  | [] => [[]]
  | x :: xs =>
      if x == c then [] :: splitOnChar c xs
      else
        match splitOnChar c xs with
        | [] => [[x]]
        | h :: t => (x :: h) :: t

/-- The pieces of the email around the `@` separators. -/
def emailParts (e : String) : List (List Char) := splitOnChar '@' e.toList

/-- Model of the test `/^[^\s@]+@[^\s@]+\.[^\s@]+$/.test(email)`
(`src/ratings.js` line 103). -/
def emailRegexTest (e : String) : Bool :=
  match emailParts e with
  | [loc, dom] =>
      !loc.isEmpty && loc.all cleanChar && dom.all cleanChar && interiorDot dom
  | _ => false

/-- `listPrefixOf p l` decides whether `p` is a prefix of `l`. -/
def listPrefixOf : List Char → List Char → Bool
  | [], _ => true
  | _ :: _, [] => false
  | a :: as, b :: bs => a == b && listPrefixOf as bs

/-- `listInfixOf p l` decides whether `p` occurs contiguously inside `l`. -/
def listInfixOf (p : List Char) : List Char → Bool
  | [] => listPrefixOf p []
  | b :: bs => listPrefixOf p (b :: bs) || listInfixOf p bs

/-- JS `s.includes(pat)`. -/
def jsIncludes (s pat : String) : Bool := listInfixOf pat.toList s.toList

/-- JS `s.endsWith(pat)`. -/
def jsEndsWith (s pat : String) : Bool :=
  listPrefixOf pat.toList.reverse s.toList.reverse

/-- JS `s.replace(/\d+/g, '')`: remove all digits. -/
def stripDigits (s : String) : String :=
  String.mk (s.toList.filter (fun c => !c.isDigit))

/-- `email.split('@')[1].toLowerCase()` (`src/ratings.js` line 111). -/
def emailDomain (e : String) : String :=
  String.mk (((emailParts e).getD 1 []).map Char.toLower)

/-- `emailDomain.split('.')[0]` (`src/ratings.js` line 151). -/
def domainRootLabel (d : String) : String :=
  String.mk ((splitOnChar '.' d.toList).getD 0 [])

/-- Allow-listed consumer mail provider domains (`src/ratings.js` lines
121-129). -/
def validConsumerDomains : List String :=
  ["gmail.com", "yahoo.com", "outlook.com", "hotmail.com",
   "aol.com", "icloud.com", "protonmail.com", "proton.me",
   "zoho.com", "mail.com", "yandex.com", "gmx.com", "gmx.net",
   "fastmail.com", "tutanota.com", "tutanota.de", "live.com", "msn.com",
   "me.com", "comcast.net", "verizon.net", "att.net", "mail.ru",
   "web.de", "yahoo.co.uk", "yahoo.fr", "yahoo.co.jp", "yahoo.com.br",
   "googlemail.com", "pm.me", "aim.com", "outlook.fr", "outlook.de"]

/-- Major company domains (`src/ratings.js` lines 132-135). -/
def majorCompanyDomains : List String :=
  ["apple.com", "google.com", "microsoft.com", "amazon.com", "facebook.com",
   "meta.com", "ibm.com", "oracle.com", "intel.com", "cisco.com"]

/-- Educational TLDs (`src/ratings.js` line 138). -/
def validEducationTLDs : List String := [".edu", ".ac.uk", ".edu.au"]

/-- Fake domain patterns (`src/ratings.js` line 146). -/
def fakeDomainPatterns : List String := ["test", "example", "fake", "lol", "temp"]

/-- Explicitly blocked domains (`src/ratings.js` lines 166-170). -/
def blockedDomains : List String :=
  ["lol.com", "lol2.com", "lol3.com", "example.com", "test.com", "test1.com",
   "test2.com", "test3.com", "test4.com", "test5.com", "fake.com",
   "mailinator.com", "tempmail.com", "throwawaymail.com"]

/-- Suspicious substrings (`src/ratings.js` lines 181-184). -/
def suspiciousPatterns : List String :=
  ["temp", "fake", "trash", "disposable", "throwaway",
   "mailinator", "guerrilla", "tempmail", "10minute", "sharklasers"]

/-- Outcome of the email validation chain in `handlePostRating`. -/
inductive EmailCheck where
  | malformed : EmailCheck
  | fakePattern : EmailCheck
  | blockedDomain : EmailCheck
  | suspicious : EmailCheck
  | notWhitelisted : EmailCheck
  | ok : EmailCheck
deriving DecidableEq

/-- The fake-domain pattern loop (`src/ratings.js` lines 149-163): fires
when the root label contains the pattern as a substring, or equals the
pattern after removing digits. -/
def fakePatternHit (d : String) : Bool :=
  fakeDomainPatterns.any
    (fun p => jsIncludes (domainRootLabel d) p || stripDigits (domainRootLabel d) == p)

/-- The suspicious-substring loop (`src/ratings.js` lines 187-195). -/
def suspiciousHit (d : String) : Bool :=
  suspiciousPatterns.any (fun p => jsIncludes d p)

/-- Allow-list membership (`src/ratings.js` lines 141-143). -/
def whitelisted (d : String) : Bool :=
  validConsumerDomains.contains d || majorCompanyDomains.contains d
    || validEducationTLDs.any (fun t => jsEndsWith d t)

/-- Domain classification, in the rejection order of the source: fake
pattern loop, block list, suspicious substrings, then whitelist
(`src/ratings.js` lines 145-204). -/
def classifyDomain (d : String) : EmailCheck :=
  if fakePatternHit d then .fakePattern
  else if blockedDomains.contains d then .blockedDomain
  else if suspiciousHit d then .suspicious
  else if whitelisted d then .ok
  else .notWhitelisted

/-- Full email validation (`src/ratings.js` lines 101-207). -/
def validateEmail (e : String) : EmailCheck :=
  if emailRegexTest e then classifyDomain (emailDomain e) else .malformed

/-- The response produced by the email-validation block, `none` when
validation passes or the email is absent (`src/ratings.js` lines 101-207). -/
def emailValidationStep (email : String) : Option ApiResp :=
  if email == "" then none
  else
    match validateEmail email with
    | .ok => none
    | .malformed => some ⟨400, .errBody "Invalid email format" none⟩
    | .fakePattern => some ⟨400, .errBody "Invalid email domain"
        (some "Please use a valid email address from a recognized provider")⟩
    | .blockedDomain => some ⟨400, .errBody "Invalid email domain"
        (some "Please use a valid email address from a recognized provider")⟩
    | .suspicious => some ⟨400, .errBody "Invalid email domain"
        (some "Please use a valid email address from a recognized provider")⟩
    | .notWhitelisted => some ⟨400, .errBody "Email domain not recognized"
        (some "Please use a valid email address from a recognized provider like Gmail, Yahoo, Outlook, etc.")⟩

/-- Whether each of the three store operations of `handlePostRating`
throws; the try/catch structure of the source decides what each failure
does. -/
structure DbEnv where
  emailQueryFails : Bool
  ipQueryFails : Bool
  putFails : Bool
deriving DecidableEq

/-- The environment in which every store operation succeeds. -/
def honestEnv : DbEnv := ⟨false, false, false⟩

/-- `event.requestContext?.identity?.sourceIp || 'unknown'`
(`src/ratings.js` line 210). -/
def effIp (req : PostRequest) : String := strOr req.sourceIp "unknown"

/-- Records for `cid` whose stored `email` equals the given email exactly
(the DynamoDB query of `src/ratings.js` lines 215-225). -/
def dupEmailMatches (store : List RatingItem) (cid email : String) : List RatingItem :=
  store.filter (fun it => it.channelId == cid && it.email == email)

/-- Records for `cid` whose stored `ipAddress` equals `ip` (the DynamoDB
query of `src/ratings.js` lines 246-256). -/
def ipMatches (store : List RatingItem) (cid ip : String) : List RatingItem :=
  store.filter (fun it => it.channelId == cid && it.ipAddress == ip)

/-- The item built and stored on the success path (`src/ratings.js` lines
273-310), with `now` standing for `new Date().toISOString()`. -/
def mkItem (now ip : String) (req : PostRequest) : RatingItem :=
  ⟨req.channelId, now, req.rating.getD 0, strOr req.comment "",
   strOr req.channelTitle "", strOr req.email "", ip,
   strOr req.userAgent "unknown",
   if req.thumbnailUrl == "" then none else some req.thumbnailUrl,
   if req.description == "" then none else some req.description,
   normalizePic req.profilePicture⟩

/-- `handlePostRating` from `src/ratings.js` as a pure function from the
environment, the current instant, the table contents and the request to the
response and the new table contents. -/
def handlePostRating (env : DbEnv) (now : String) (store : List RatingItem)
    (req : PostRequest) : ApiResp × List RatingItem :=
  if req.channelId == "" then
    (⟨400, .errBody "Channel ID is required" none⟩, store)
  else if ratingInvalid req.rating then
    (⟨400, .errBody "Rating must be a number between 1 and 5" none⟩, store)
  else
    match emailValidationStep req.email with
    | some r => (r, store)
    | none =>
      let ip := effIp req
      if req.email != "" && !env.emailQueryFails
          && !(dupEmailMatches store req.channelId req.email).isEmpty then
        (⟨400, .errBody "You have already rated this channel"
          (some "Each email can only submit one rating per channel")⟩, store)
      else if ip != "unknown" && !env.ipQueryFails
          && decide (2 ≤ (ipMatches store req.channelId ip).length) then
        (⟨429, .errBody "Rating limit reached"
          (some "You have reached the maximum number of ratings allowed (2) for this creator.")⟩,
         store)
      else if env.putFails then
        (⟨500, .errBody "Failed to save rating" none⟩, store)
      else
        (⟨201, .createdBody "Rating submitted successfully" now req.channelId⟩,
         store ++ [mkItem now ip req])

/-- Exact rational division, written so that it reduces inside the kernel
(`Rat.inv` is irreducible); `jsDiv_eq_div` below shows it is the field
division of `ℚ`. -/
def jsDiv (a b : ℚ) : ℚ := Rat.divInt (a.num * b.den) (b.num * a.den)

/-- Exact rational addition, written so that it reduces inside the kernel
(`Rat.add` is irreducible); `jsAdd_eq_add` below shows it is the addition
of `ℚ`. -/
def jsAdd (a b : ℚ) : ℚ :=
  Rat.divInt (a.num * b.den + b.num * a.den) ((a.den * b.den : Nat) : Int)

/-- Exact rational multiplication, written so that it reduces inside the
kernel (`Rat.mul` is irreducible); `jsMul_eq_mul` below shows it is the
multiplication of `ℚ`. -/
def jsMul (a b : ℚ) : ℚ :=
  Rat.divInt (a.num * b.num) ((a.den * b.den : Nat) : Int)

/-- One half as an explicit rational. -/
def oneHalf : ℚ := mkRat 1 2

/-- The exact value of JS `x.toFixed(1)`: the multiple of one tenth nearest
to `x`, ties resolved to the larger candidate, that is
`⌊x * 10 + 1/2⌋ / 10` (see `jsToFixed1_eq`). -/
def jsToFixed1 (q : ℚ) : ℚ := jsDiv (⌊jsAdd (jsMul q 10) oneHalf⌋ : ℚ) 10

/-- Modelled from the spec (section 4.3): rounding to one decimal place,
half away from zero.  Used only to compare the displayed average against
the wording of the spec. -/
def roundHalfAwayFromZero1 (q : ℚ) : ℚ :=
  if 0 ≤ q then jsDiv (⌊jsAdd (jsMul q 10) oneHalf⌋ : ℚ) 10
  else -(jsDiv (⌊jsAdd (jsMul (-q) 10) oneHalf⌋ : ℚ) 10)

/-- Two to an integer power, as a rational. -/
def pow2Q (k : Int) : ℚ :=
  if 0 ≤ k then ((2 ^ k.toNat : Nat) : ℚ)
  else Rat.divInt 1 ((2 ^ (-k).toNat : Nat) : Int)

/-- The integer nearest to `x`, ties to the even neighbour (the rounding
of IEEE-754 round-to-nearest). -/
def roundHalfEvenInt (x : ℚ) : Int :=
  if jsAdd x (-(⌊x⌋ : ℚ)) < oneHalf then ⌊x⌋
  else if oneHalf < jsAdd x (-(⌊x⌋ : ℚ)) then ⌊x⌋ + 1
  else if ⌊x⌋ % 2 = 0 then ⌊x⌋ else ⌊x⌋ + 1

/-- The binade exponent of `q`: the largest `e` with `2 ^ e ≤ q`, for
`q ≥ 1`, found by repeated halving (the fuel covers every finite
binary64 exponent). -/
def expFuel : Nat → ℚ → Nat
  | 0, _ => 0
  | fuel + 1, q => if q < 2 then 0 else expFuel fuel (jsDiv q 2) + 1

/-- The IEEE-754 binary64 value nearest to `q` (ties to even): the
rational is scaled onto the 53-bit significand grid of its binade and
rounded half-to-even.  Defined for `q ≥ 1` — every quotient the rating
code rounds is a mean of scores in [1,5] — and the identity below 1, so
no subnormal handling is needed. -/
def roundToDouble (q : ℚ) : ℚ :=
  if q < 1 then q
  else
    jsMul ((roundHalfEvenInt (jsMul q (pow2Q (52 - (expFuel 1100 q : Int)))) : ℚ))
      (pow2Q ((expFuel 1100 q : Int) - 52))

/-- `result.Items.reduce((sum, item) => sum + item.rating, 0)`
(`src/creatorProfile.js` line 125, `src/ratings.js` line 52). -/
def totalOf (items : List RatingItem) : ℚ :=
  items.foldl (fun s it => jsAdd s it.rating) 0

/-- The average reported for a channel by `getChannelRatings`
(`src/creatorProfile.js` lines 124-131) and `handleGetRatings`
(`src/ratings.js` lines 51-57): the division is performed in double
precision (the exact quotient rounded to the nearest binary64), and that
double is rendered with `toFixed(1)`; `none` when there are no records. -/
def reportedAverage (items : List RatingItem) : Option ℚ :=
  if 0 < items.length then
    some (jsToFixed1 (roundToDouble (jsDiv (totalOf items) (items.length : ℚ))))
  else none

/-- One projected item of the top-creators scan
(`ProjectionExpression: channelId, channelTitle, thumbnailUrl, rating`). -/
structure ScanItem where
  channelId : String
  channelTitle : String
  thumbnailUrl : String
  rating : ℚ
deriving DecidableEq

/-- One entry of `channelMap` in `getTopCreators`. -/
structure ChannelGroup where
  channelId : String
  channelTitle : String
  thumbnailUrl : String
  ratings : List ℚ
  totalRatings : Nat
deriving DecidableEq

/-- One step of the `forEach` grouping loop of `getTopCreators`: a fresh
key appends a new group (insertion order preserved, title and thumbnail
taken from the first record of the channel); an existing key pushes the
rating and bumps the count. -/
def addToMap (m : List ChannelGroup) (it : ScanItem) : List ChannelGroup :=
  if m.any (fun g => g.channelId == it.channelId) then
    m.map (fun g =>
      if g.channelId == it.channelId then
        ChannelGroup.mk g.channelId g.channelTitle g.thumbnailUrl
          (g.ratings ++ [it.rating]) (g.totalRatings + 1)
      else g)
  else
    m ++ [ChannelGroup.mk it.channelId (strOr it.channelTitle "")
      (strOr it.thumbnailUrl "") [it.rating] 1]

/-- The insertion-ordered grouping of a scanned page by `channelId`. -/
def groupByChannel (items : List ScanItem) : List ChannelGroup :=
  items.foldl addToMap []

/-- One creator entry of the top-creators response. -/
structure CreatorOut where
  channelId : String
  channelTitle : String
  thumbnailUrl : String
  averageRating : ℚ
  totalRatings : Nat
deriving DecidableEq

/-- `totalRatings > 0 ? totalScore / totalRatings : 0` (part_004 line 88). -/
def groupMean (g : ChannelGroup) : ℚ :=
  if 0 < g.totalRatings then
    jsDiv (g.ratings.foldl (fun a b => jsAdd a b) 0) (g.totalRatings : ℚ)
  else 0

/-- The mapped creator entry, with `parseFloat(averageRating.toFixed(1))`
(part_004 lines 86-97). -/
def mkCreatorOut (g : ChannelGroup) : CreatorOut :=
  CreatorOut.mk g.channelId g.channelTitle g.thumbnailUrl
    (jsToFixed1 (groupMean g)) g.totalRatings

/-- The comparator `(a, b) => b.averageRating - a.averageRating` of
part_004 line 102, as the total preorder a JS stable sort realises:
descending by the rounded average, ties kept in grouping order. -/
def outDesc (a b : CreatorOut) : Prop := b.averageRating ≤ a.averageRating

instance : DecidableRel outDesc :=
  fun a b => inferInstanceAs (Decidable (b.averageRating ≤ a.averageRating))

instance : IsTotal CreatorOut outDesc :=
  ⟨fun a b => le_total b.averageRating a.averageRating⟩

instance : IsTrans CreatorOut outDesc :=
  ⟨fun _ _ _ h1 h2 => le_trans h2 h1⟩

/-- `getTopCreators` from part_004 (lines 47-120) restricted to one scanned
page: group by channel, filter by the minimum-ratings threshold, map to
display entries (rounding the average), stable-sort descending by the
rounded average, take the first `limit`. -/
def getTopCreators (items : List ScanItem) (limit minRatings : Nat) : List CreatorOut :=
  ((((groupByChannel items).filter (fun g => decide (minRatings ≤ g.totalRatings))).map
    mkCreatorOut).insertionSort outDesc).take limit

/-- Descending order on the true (unrounded) group mean, ties kept in
grouping order. -/
def groupDesc (a b : ChannelGroup) : Prop := groupMean b ≤ groupMean a

instance : DecidableRel groupDesc :=
  fun a b => inferInstanceAs (Decidable (groupMean b ≤ groupMean a))

instance : IsTotal ChannelGroup groupDesc :=
  ⟨fun a b => le_total (groupMean b) (groupMean a)⟩

instance : IsTrans ChannelGroup groupDesc :=
  ⟨fun _ _ _ h1 h2 => le_trans h2 h1⟩

/-- Modelled from the spec (section 4.3): after grouping, filter by the
`minRatings` threshold, sort descending by `averageScore` as the true
arithmetic mean (rounding applied only at the final display step), take
the first `limit` entries. -/
def specTopCreators (items : List ScanItem) (limit minRatings : Nat) : List CreatorOut :=
  (((((groupByChannel items).filter
      (fun g => decide (minRatings ≤ g.totalRatings))).insertionSort groupDesc).take
    limit).map mkCreatorOut)

/-- The effective limit of GET /recent-ratings
(`src/recentRatings.js` lines 24-49): `parseInt(..., 10) || 3` followed by
the range check; `none` models an absent or unparsable parameter. -/
def effectiveLimit (requested : Option Int) : Int :=
  let l : Int :=
    match requested with
    | none => 3
    | some v => if v == 0 then 3 else v
  if l < 1 || 100 < l then 3 else l

/-- Sort key of the recent-ratings sort: a missing timestamp falls back to
the epoch string (`src/recentRatings.js` lines 87-98). -/
def tsKey (it : RatingItem) : String := strOr it.timestamp "1970-01-01T00:00:00.000Z"

/-- The comparator of `src/recentRatings.js` lines 87-98 as a total
preorder: newest timestamp first.  Date order of ISO-8601 strings agrees
with lexicographic string order, which is how it is modelled here. -/
def recentDesc (a b : RatingItem) : Prop := tsKey b ≤ tsKey a

instance : DecidableRel recentDesc :=
  fun a b => inferInstanceAs (Decidable (tsKey b ≤ tsKey a))

instance : IsTotal RatingItem recentDesc := ⟨fun a b => le_total (tsKey b) (tsKey a)⟩

instance : IsTrans RatingItem recentDesc := ⟨fun _ _ _ h1 h2 => le_trans h2 h1⟩

/-- One cleaned entry of the recent-ratings response
(`src/recentRatings.js` lines 106-113). -/
structure RecentOut where
  channelId : String
  channelTitle : String
  rating : ℚ
  comment : String
  timestamp : String
  thumbnailUrl : String
deriving DecidableEq

/-- The map to the clean response format (`src/recentRatings.js` lines
106-113). -/
def cleanRecent (it : RatingItem) : RecentOut :=
  RecentOut.mk (strOr it.channelId "") (strOr it.channelTitle "") it.rating
    (strOr it.comment "") (strOr it.timestamp "") (strOr (it.thumbnailUrl.getD "") "")

/-- The recent-ratings response: status, count and entries. -/
structure RecentResp where
  statusCode : Nat
  count : Nat
  ratings : List RecentOut
deriving DecidableEq

/-- `getRecentRatings` from `src/recentRatings.js` (lines 62-129) on one
scanned page: 404 when the page is empty, else sort newest first, take
`limit`, map to the clean format. -/
def getRecentRatings (items : List RatingItem) (limit : Nat) : RecentResp :=
  if items.length == 0 then ⟨404, 0, []⟩
  else
    let recent := (items.insertionSort recentDesc).take limit
    ⟨200, recent.length, recent.map cleanRecent⟩

/-! Concrete inputs used by individual claims. -/

/-- A POST body with the non-integer score 9/2 and no email. -/
def c1FracReq : PostRequest :=
  PostRequest.mk "c1" "" (some (mkRat 9 2)) "" "" "" "" PicVal.absent "1.2.3.4" ""

/-- A POST body with the out-of-range score 6 and no email. -/
def c1BadReq : PostRequest :=
  PostRequest.mk "c1" "" (some 6) "" "" "" "" PicVal.absent "1.2.3.4" ""

/-- A POST body with no email, used for the rate-limit scenario. -/
def c2Req : PostRequest :=
  PostRequest.mk "chan" "" (some 5) "" "" "" "" PicVal.absent "9.8.7.6" ""

/-- A POST body carrying an allow-listed email. -/
def c3Req : PostRequest :=
  PostRequest.mk "chan" "" (some 4) "nice" "user@gmail.com" "" "" PicVal.absent "9.8.7.6" ""

/-- A valid POST body with no email and a profile picture given as a bare
string. -/
def c4Req : PostRequest :=
  PostRequest.mk "chan" "A Creator" (some 5) "great" "" "http://t" "desc"
    (PicVal.picStr "http://pic") "9.8.7.6" "UA"

/-- A POST body whose email domain has root label `contest`, which merely
contains the marker `test` as a substring. -/
def c5Req : PostRequest :=
  PostRequest.mk "chan" "" (some 5) "" "a@contest.ac.uk" "" "" PicVal.absent "9.8.7.6" ""

/-- Records with scores 5, 4, 3 for one creator. -/
def c6Items543 : List RatingItem :=
  [RatingItem.mk "c" "t1" 5 "" "" "" "ip" "u" none none none,
   RatingItem.mk "c" "t2" 4 "" "" "" "ip" "u" none none none,
   RatingItem.mk "c" "t3" 3 "" "" "" "ip" "u" none none none]

/-- Records with scores 5, 5, 4 for one creator. -/
def c6Items554 : List RatingItem :=
  [RatingItem.mk "c" "t1" 5 "" "" "" "ip" "u" none none none,
   RatingItem.mk "c" "t2" 5 "" "" "" "ip" "u" none none none,
   RatingItem.mk "c" "t3" 4 "" "" "" "ip" "u" none none none]

/-- Twenty records for one creator: thirteen scores of 4 and seven scores
of 5, whose true mean is 87/20 = 4.35. -/
def c6Items20 : List RatingItem :=
  List.replicate 13 (RatingItem.mk "c" "t" 4 "" "" "" "ip" "u" none none none)
    ++ List.replicate 7 (RatingItem.mk "c" "t" 5 "" "" "" "ip" "u" none none none)

/-- A scanned page where creator B (grouped first) has ratings
`[4, 4, 4, 5]` (mean 17/4) and creator A has `[4, 4, 5]` (mean 13/3); both
means display as 4.3 after rounding, but the true means differ. -/
def c7Items : List ScanItem :=
  [ScanItem.mk "B" "" "" 4, ScanItem.mk "B" "" "" 4, ScanItem.mk "B" "" "" 4,
   ScanItem.mk "B" "" "" 5,
   ScanItem.mk "A" "" "" 4, ScanItem.mk "A" "" "" 4, ScanItem.mk "A" "" "" 5]

/-- A page with three records for creator A and one for creator B. -/
def c7CountsItems : List ScanItem :=
  [ScanItem.mk "A" "" "" 5, ScanItem.mk "A" "" "" 4, ScanItem.mk "A" "" "" 3,
   ScanItem.mk "B" "" "" 5]

/-- A stored page with distinct timestamps, for the recent-ratings
witness. -/
def c9Items : List RatingItem :=
  [RatingItem.mk "c" "2024-01-01T00:00:00.000Z" 5 "" "" "" "ip" "u" none none none,
   RatingItem.mk "d" "2024-03-01T00:00:00.000Z" 4 "" "" "" "ip" "u" none none none,
   RatingItem.mk "e" "2024-02-01T00:00:00.000Z" 3 "" "" "" "ip" "u" none none none]

/-- A POST body whose email has an upper-case local part. -/
def c10ReqUpper : PostRequest :=
  PostRequest.mk "chan" "" (some 5) "" "User@gmail.com" "" "" PicVal.absent "9.8.7.6" ""

/-- The same POST body with the email entirely lower-case. -/
def c10ReqLower : PostRequest :=
  PostRequest.mk "chan" "" (some 1) "" "user@gmail.com" "" "" PicVal.absent "9.8.7.6" ""

/-! Helper lemmas. -/

/-- `jsDiv` is the field division of `ℚ`. -/
theorem jsDiv_eq_div (a b : ℚ) : jsDiv a b = a / b := by
  have had : ((a.den : ℚ)) ≠ 0 := by
    exact_mod_cast a.den_nz
  have hbd : ((b.den : ℚ)) ≠ 0 := by
    exact_mod_cast b.den_nz
  have ha : (a.num : ℚ) = a * a.den := (div_eq_iff had).mp (Rat.num_div_den a)
  have hb : (b.num : ℚ) = b * b.den := (div_eq_iff hbd).mp (Rat.num_div_den b)
  rw [jsDiv, Rat.divInt_eq_div]
  rcases eq_or_ne b 0 with h0 | h0
  · subst h0
    norm_num
  · have hbn : (b.num : ℚ) ≠ 0 := by
      rw [hb]
      exact mul_ne_zero h0 hbd
    push_cast
    rw [div_eq_div_iff (mul_ne_zero hbn had) h0, ha, hb]
    ring

/-- `jsAdd` is the addition of `ℚ`. -/
theorem jsAdd_eq_add (a b : ℚ) : jsAdd a b = a + b := by
  have had : ((a.den : ℚ)) ≠ 0 := by
    exact_mod_cast a.den_nz
  have hbd : ((b.den : ℚ)) ≠ 0 := by
    exact_mod_cast b.den_nz
  have ha : (a.num : ℚ) = a * a.den := (div_eq_iff had).mp (Rat.num_div_den a)
  have hb : (b.num : ℚ) = b * b.den := (div_eq_iff hbd).mp (Rat.num_div_den b)
  rw [jsAdd, Rat.divInt_eq_div]
  push_cast
  rw [div_eq_iff (mul_ne_zero had hbd), ha, hb]
  ring

/-- `jsMul` is the multiplication of `ℚ`. -/
theorem jsMul_eq_mul (a b : ℚ) : jsMul a b = a * b := by
  have had : ((a.den : ℚ)) ≠ 0 := by
    exact_mod_cast a.den_nz
  have hbd : ((b.den : ℚ)) ≠ 0 := by
    exact_mod_cast b.den_nz
  have ha : (a.num : ℚ) = a * a.den := (div_eq_iff had).mp (Rat.num_div_den a)
  have hb : (b.num : ℚ) = b * b.den := (div_eq_iff hbd).mp (Rat.num_div_den b)
  rw [jsMul, Rat.divInt_eq_div]
  push_cast
  rw [div_eq_iff (mul_ne_zero had hbd), ha, hb]
  ring

/-- `oneHalf` is one half. -/
theorem oneHalf_eq : oneHalf = 1 / 2 := by
  rw [oneHalf, Rat.mkRat_eq_divInt, Rat.divInt_eq_div]
  norm_num

/-- `jsToFixed1` rounds to the nearest tenth, ties upward. -/
theorem jsToFixed1_eq (q : ℚ) : jsToFixed1 q = (⌊q * 10 + 1 / 2⌋ : ℚ) / 10 := by
  rw [jsToFixed1, jsDiv_eq_div, jsAdd_eq_add, jsMul_eq_mul, oneHalf_eq]

/-- Powers of two are non-negative. -/
theorem pow2Q_nonneg (k : Int) : 0 ≤ pow2Q k := by
  unfold pow2Q
  split
  · positivity
  · rw [Rat.divInt_eq_div]
    positivity

/-- Rounding half-to-even keeps non-negative values non-negative. -/
theorem roundHalfEvenInt_nonneg (x : ℚ) (h : 0 ≤ x) : 0 ≤ roundHalfEvenInt x := by
  have hf : 0 ≤ ⌊x⌋ := Int.floor_nonneg.mpr h
  unfold roundHalfEvenInt
  split_ifs <;> omega

/-- Binary64 rounding keeps non-negative values non-negative. -/
theorem roundToDouble_nonneg (q : ℚ) (h : 0 ≤ q) : 0 ≤ roundToDouble q := by
  unfold roundToDouble
  split
  · exact h
  · have h1 : 0 ≤ jsMul q (pow2Q (52 - (expFuel 1100 q : Int))) := by
      rw [jsMul_eq_mul]
      exact mul_nonneg h (pow2Q_nonneg _)
    have h2 : (0 : ℚ)
        ≤ ((roundHalfEvenInt (jsMul q (pow2Q (52 - (expFuel 1100 q : Int))))) : ℚ) := by
      exact_mod_cast roundHalfEvenInt_nonneg _ h1
    rw [jsMul_eq_mul]
    exact mul_nonneg h2 (pow2Q_nonneg _)

/-- On non-negative values, JS `toFixed(1)` rounding and rounding half
away from zero agree. -/
theorem jsToFixed1_eq_roundHalfAway (q : ℚ) (h : 0 ≤ q) :
    jsToFixed1 q = roundHalfAwayFromZero1 q := by
  unfold jsToFixed1 roundHalfAwayFromZero1
  rw [if_pos h]

/-- `v || ''` is the identity on the string model. -/
theorem strOr_empty (v : String) : strOr v "" = v := by
  by_cases h : v = "" <;> simp [strOr, h]

/-- The stored record carries the raw submitted email. -/
theorem mkItem_email (now ip : String) (req : PostRequest) :
    (mkItem now ip req).email = req.email := strOr_empty req.email

/-- Evaluation of `handlePostRating` for a valid submission without an
email: only the rate-limit check decides between 429 and a successful
write. -/
theorem handlePost_noemail (now : String) (store : List RatingItem)
    (req : PostRequest) (hmail : req.email = "") (hcid : req.channelId ≠ "")
    (hr : ratingInvalid req.rating = false) :
    handlePostRating honestEnv now store req =
      if effIp req != "unknown"
          && decide (2 ≤ (ipMatches store req.channelId (effIp req)).length) then
        (⟨429, .errBody "Rating limit reached"
          (some "You have reached the maximum number of ratings allowed (2) for this creator.")⟩,
         store)
      else
        (⟨201, .createdBody "Rating submitted successfully" now req.channelId⟩,
         store ++ [mkItem now (effIp req) req]) := by
  have hv : emailValidationStep "" = none := by decide
  have hcb : (req.channelId == "") = false := by
    simpa using hcid
  unfold handlePostRating honestEnv
  simp only [hmail, hv, hcb, hr, Bool.false_eq_true, if_false, bne_self_eq_false,
    Bool.false_and, Bool.not_false, Bool.true_and, Bool.and_true]

/-- Evaluation of `handlePostRating` for a valid submission whose email
passes validation: the duplicate-email check, then the rate-limit check,
then the successful write. -/
theorem handlePost_email (now : String) (store : List RatingItem)
    (req : PostRequest) (hmail : req.email ≠ "") (hcid : req.channelId ≠ "")
    (hr : ratingInvalid req.rating = false)
    (hok : emailValidationStep req.email = none) :
    handlePostRating honestEnv now store req =
      if !(dupEmailMatches store req.channelId req.email).isEmpty then
        (⟨400, .errBody "You have already rated this channel"
          (some "Each email can only submit one rating per channel")⟩, store)
      else if effIp req != "unknown"
          && decide (2 ≤ (ipMatches store req.channelId (effIp req)).length) then
        (⟨429, .errBody "Rating limit reached"
          (some "You have reached the maximum number of ratings allowed (2) for this creator.")⟩,
         store)
      else
        (⟨201, .createdBody "Rating submitted successfully" now req.channelId⟩,
         store ++ [mkItem now (effIp req) req]) := by
  have hcb : (req.channelId == "") = false := by
    simpa using hcid
  have hmb : (req.email != "") = true := by
    simpa using hmail
  unfold handlePostRating honestEnv
  simp only [hok, hcb, hr, hmb, Bool.false_eq_true, if_false, Bool.not_false,
    Bool.true_and, Bool.and_true]

/-- The stored record keeps the creator identifier. -/
theorem mkItem_channelId (now ip : String) (req : PostRequest) :
    (mkItem now ip req).channelId = req.channelId := rfl

/-- The stored record keeps the captured source IP. -/
theorem mkItem_ipAddress (now ip : String) (req : PostRequest) :
    (mkItem now ip req).ipAddress = ip := rfl

/-- The stored record keeps the synthesized timestamp. -/
theorem mkItem_timestamp (now ip : String) (req : PostRequest) :
    (mkItem now ip req).timestamp = now := rfl

/-- A valid no-email submission under the rate limit succeeds and appends
its record. -/
theorem handlePost_noemail_ok (now : String) (store : List RatingItem)
    (req : PostRequest) (hmail : req.email = "") (hcid : req.channelId ≠ "")
    (hr : ratingInvalid req.rating = false)
    (hlen : (ipMatches store req.channelId (effIp req)).length < 2) :
    handlePostRating honestEnv now store req =
      (⟨201, .createdBody "Rating submitted successfully" now req.channelId⟩,
       store ++ [mkItem now (effIp req) req]) := by
  rw [handlePost_noemail now store req hmail hcid hr]
  have hd : decide (2 ≤ (ipMatches store req.channelId (effIp req)).length) = false := by
    simp only [decide_eq_false_iff_not]
    omega
  simp [hd]

/-- Every allow-listed consumer domain passes the whole domain
classification chain. -/
theorem consumer_domain_ok :
    ∀ d ∈ validConsumerDomains, classifyDomain d = EmailCheck.ok := by
  decide

/-- A well-shaped email whose domain is on the consumer allow list passes
the validation block. -/
theorem emailValidationStep_consumer (e : String)
    (hshape : emailRegexTest e = true)
    (hdom : emailDomain e ∈ validConsumerDomains) :
    emailValidationStep e = none := by
  have hne : e ≠ "" := by
    intro h
    rw [h] at hshape
    exact absurd hshape (by decide)
  have hb : (e == "") = false := by
    simpa using hne
  unfold emailValidationStep validateEmail
  simp only [hb, Bool.false_eq_true, if_false, hshape, if_true]
  rw [consumer_domain_ok _ hdom]

/-- A valid submission with a passing email, no duplicate record and a
store under the rate limit succeeds and appends its record. -/
theorem handlePost_email_ok (now : String) (store : List RatingItem)
    (req : PostRequest) (hmail : req.email ≠ "") (hcid : req.channelId ≠ "")
    (hr : ratingInvalid req.rating = false)
    (hok : emailValidationStep req.email = none)
    (hdup : dupEmailMatches store req.channelId req.email = [])
    (hlen : (ipMatches store req.channelId (effIp req)).length < 2) :
    handlePostRating honestEnv now store req =
      (⟨201, .createdBody "Rating submitted successfully" now req.channelId⟩,
       store ++ [mkItem now (effIp req) req]) := by
  rw [handlePost_email now store req hmail hcid hr hok]
  have hd : decide (2 ≤ (ipMatches store req.channelId (effIp req)).length) = false := by
    simp only [decide_eq_false_iff_not]
    omega
  simp [hdup, hd]

/-- A valid submission with a passing email is rejected as a duplicate
when a record with the same creator and the same exact email string
exists. -/
theorem handlePost_email_dup (now : String) (store : List RatingItem)
    (req : PostRequest) (hmail : req.email ≠ "") (hcid : req.channelId ≠ "")
    (hr : ratingInvalid req.rating = false)
    (hok : emailValidationStep req.email = none)
    (hdup : dupEmailMatches store req.channelId req.email ≠ []) :
    handlePostRating honestEnv now store req =
      (⟨400, .errBody "You have already rated this channel"
        (some "Each email can only submit one rating per channel")⟩, store) := by
  rw [handlePost_email now store req hmail hcid hr hok]
  have hd : (dupEmailMatches store req.channelId req.email).isEmpty = false := by
    simpa [List.isEmpty_iff] using hdup
  simp [hd]

/-- The `reduce` accumulation of `totalOf` is the sum of the scores. -/
theorem totalOf_eq_sum (items : List RatingItem) :
    totalOf items = (items.map (fun it => it.rating)).sum := by
  suffices h : ∀ a : ℚ, items.foldl (fun s it => jsAdd s it.rating) a
      = a + (items.map (fun it => it.rating)).sum by
    simpa [totalOf] using h 0
  induction items with
  | nil => intro a; simp
  | cons x xs ih =>
      intro a
      rw [List.foldl_cons, ih (jsAdd a x.rating), jsAdd_eq_add]
      rw [List.map_cons, List.sum_cons]
      ring

/-! Claim theorems. -/

/-- C1: counterexample.  The submission `c1FracReq` carries the
non-integer score 9/2; contrary to the claim that a non-integer score is
rejected with 400 and no store write occurs, it is accepted with status
201 and a record is written. -/
theorem c1_counterexample :
    (handlePostRating honestEnv "t0" [] c1FracReq).fst.statusCode = 201
      ∧ (handlePostRating honestEnv "t0" [] c1FracReq).snd ≠ [] := by
  decide

/-- C1 (amended): a POST /ratings submission whose score is absent or not
a number, or is a number outside [1,5], is rejected with status 400 and
the store is left unchanged.  The code never checks integrality, so a
non-integer score inside [1,5] is accepted (see the counterexample). -/
theorem c1_score_validation (env : DbEnv) (now : String) (store : List RatingItem)
    (req : PostRequest)
    (h : req.rating = none ∨ ∃ q : ℚ, req.rating = some q ∧ (q < 1 ∨ 5 < q)) :
    (handlePostRating env now store req).fst.statusCode = 400
      ∧ (handlePostRating env now store req).snd = store := by
  have hinv : ratingInvalid req.rating = true := by
    rcases h with h | ⟨q, hq, hb | hb⟩
    · simp [h, ratingInvalid]
    · simp [hq, ratingInvalid, hb]
    · simp [hq, ratingInvalid, hb]
  unfold handlePostRating
  by_cases hc : req.channelId == "" <;> simp [hc, hinv]

/-- C1 witness: the amended theorem applied to the out-of-range score 6. -/
theorem c1_score_validation_witness :
    (handlePostRating honestEnv "t0" [] c1BadReq).fst.statusCode = 400
      ∧ (handlePostRating honestEnv "t0" [] c1BadReq).snd = [] :=
  c1_score_validation honestEnv "t0" [] c1BadReq
    (Or.inr ⟨6, rfl, Or.inr (by norm_num)⟩)

/-- C2: for a valid no-email submission from a known source IP, the
handler returns 429 exactly when the store already holds at least two
records for that creator with that submitter IP; and three successive
submissions from the same IP to the same creator, each reflected in the
store before the next check, return 201, 201, then 429. -/
theorem c2_rate_limit :
    (∀ (now : String) (store : List RatingItem) (req : PostRequest),
        req.email = "" → req.channelId ≠ "" → ratingInvalid req.rating = false →
        effIp req ≠ "unknown" →
        ((handlePostRating honestEnv now store req).fst.statusCode = 429
          ↔ 2 ≤ (ipMatches store req.channelId (effIp req)).length))
    ∧ (∀ (t1 t2 t3 : String) (req : PostRequest),
        req.email = "" → req.channelId ≠ "" → ratingInvalid req.rating = false →
        effIp req ≠ "unknown" →
        (handlePostRating honestEnv t1 [] req).fst.statusCode = 201
        ∧ (handlePostRating honestEnv t2
            (handlePostRating honestEnv t1 [] req).snd req).fst.statusCode = 201
        ∧ (handlePostRating honestEnv t3
            (handlePostRating honestEnv t2
              (handlePostRating honestEnv t1 [] req).snd req).snd req).fst.statusCode
            = 429) := by
  constructor
  · intro now store req hmail hcid hr hip
    rw [handlePost_noemail now store req hmail hcid hr]
    have hipb : (effIp req != "unknown") = true := by
      simpa using hip
    by_cases h2 : 2 ≤ (ipMatches store req.channelId (effIp req)).length
    · simp [hipb, h2]
    · simp [hipb, h2]
  · intro t1 t2 t3 req hmail hcid hr hip
    have hipb : (effIp req != "unknown") = true := by
      simpa using hip
    have hm1 : ipMatches [mkItem t1 (effIp req) req] req.channelId (effIp req)
        = [mkItem t1 (effIp req) req] := by
      simp [ipMatches, mkItem_channelId, mkItem_ipAddress]
    have hm2 : ipMatches [mkItem t1 (effIp req) req, mkItem t2 (effIp req) req]
        req.channelId (effIp req)
        = [mkItem t1 (effIp req) req, mkItem t2 (effIp req) req] := by
      simp [ipMatches, mkItem_channelId, mkItem_ipAddress]
    have e1 := handlePost_noemail_ok t1 [] req hmail hcid hr
      (by simp [ipMatches])
    have e2 := handlePost_noemail_ok t2 [mkItem t1 (effIp req) req] req hmail hcid hr
      (by rw [hm1]; simp)
    have e3 := handlePost_noemail t3
      [mkItem t1 (effIp req) req, mkItem t2 (effIp req) req] req hmail hcid hr
    rw [e1]
    simp only [List.nil_append]
    rw [e2]
    simp only [List.cons_append, List.nil_append]
    rw [e3, hm2]
    simp [hipb]

/-- C2 witness: the first part of the rate-limit theorem applied to a
concrete request and a store already holding two records from the same IP
for the same creator, yielding 429. -/
theorem c2_rate_limit_witness :
    (handlePostRating honestEnv "t3"
      [mkItem "t1" "9.8.7.6" c2Req, mkItem "t2" "9.8.7.6" c2Req] c2Req).fst.statusCode
      = 429 := by
  have h := c2_rate_limit.1 "t3"
    [mkItem "t1" "9.8.7.6" c2Req, mkItem "t2" "9.8.7.6" c2Req] c2Req
    rfl (by decide) (by decide) (by decide)
  exact h.mpr (by decide)

/-- C3: for any creator and any well-shaped email on the consumer allow
list, submitting twice with the same creator and email yields 201 on the
first call and the already-rated 400 on the second, given the store
reflects the first write before the second check runs. -/
theorem c3_duplicate_email (t1 t2 : String) (req : PostRequest)
    (hcid : req.channelId ≠ "") (hr : ratingInvalid req.rating = false)
    (hshape : emailRegexTest req.email = true)
    (hdom : emailDomain req.email ∈ validConsumerDomains) :
    (handlePostRating honestEnv t1 [] req).fst.statusCode = 201
    ∧ (handlePostRating honestEnv t2
        (handlePostRating honestEnv t1 [] req).snd req).fst
        = ⟨400, .errBody "You have already rated this channel"
            (some "Each email can only submit one rating per channel")⟩ := by
  have hne : req.email ≠ "" := by
    intro h
    rw [h] at hshape
    exact absurd hshape (by decide)
  have hok := emailValidationStep_consumer req.email hshape hdom
  have e1 := handlePost_email_ok t1 [] req hne hcid hr hok rfl
    (by simp [ipMatches])
  have hm1 : dupEmailMatches [mkItem t1 (effIp req) req] req.channelId req.email
      = [mkItem t1 (effIp req) req] := by
    simp [dupEmailMatches, mkItem_channelId, mkItem_email]
  have e2 := handlePost_email_dup t2 [mkItem t1 (effIp req) req] req hne hcid hr hok
    (by rw [hm1]; simp)
  rw [e1]
  simp only [List.nil_append]
  rw [e2]
  simp

/-- C3 witness: the duplicate-email theorem applied to a concrete request
with the allow-listed email `user@gmail.com`. -/
theorem c3_duplicate_email_witness :
    (handlePostRating honestEnv "t1" [] c3Req).fst.statusCode = 201
    ∧ (handlePostRating honestEnv "t2"
        (handlePostRating honestEnv "t1" [] c3Req).snd c3Req).fst
        = ⟨400, .errBody "You have already rated this channel"
            (some "Each email can only submit one rating per channel")⟩ :=
  c3_duplicate_email "t1" "t2" c3Req (by decide) (by decide) (by decide) (by decide)

/-- C4: a submission with a non-empty creator, an integer score in [1,5]
and no email (and the per-IP limit not yet reached) writes the full
record, with the timestamp synthesized from the current instant, and
returns 201 whose channelId and timestamp equal the stored record's
creator and timestamp. -/
theorem c4_valid_submission_stored (now : String) (store : List RatingItem)
    (req : PostRequest) (n : ℕ)
    (hcid : req.channelId ≠ "") (hmail : req.email = "")
    (hq : req.rating = some (n : ℚ)) (h1 : 1 ≤ n) (h5 : n ≤ 5)
    (hlen : (ipMatches store req.channelId (effIp req)).length < 2) :
    (handlePostRating honestEnv now store req).snd
        = store ++ [mkItem now (effIp req) req]
    ∧ (handlePostRating honestEnv now store req).fst
        = ⟨201, .createdBody "Rating submitted successfully"
            (mkItem now (effIp req) req).timestamp
            (mkItem now (effIp req) req).channelId⟩ := by
  have hn0 : (n : ℚ) ≠ 0 := Nat.cast_ne_zero.mpr (by omega)
  have hge : (1 : ℚ) ≤ (n : ℚ) := by
    exact_mod_cast h1
  have hle : (n : ℚ) ≤ 5 := by
    exact_mod_cast h5
  have hr : ratingInvalid req.rating = false := by
    rw [hq]
    simp [ratingInvalid, hn0, not_lt.mpr hge, not_lt.mpr hle]
  have e := handlePost_noemail_ok now store req hmail hcid hr hlen
  rw [e]
  exact ⟨rfl, rfl⟩

/-- C4 witness: the theorem applied to a concrete valid submission with
score 5 and an empty store. -/
theorem c4_valid_submission_stored_witness :
    (handlePostRating honestEnv "2024-01-01T00:00:00.000Z" [] c4Req).snd
        = [] ++ [mkItem "2024-01-01T00:00:00.000Z" (effIp c4Req) c4Req]
    ∧ (handlePostRating honestEnv "2024-01-01T00:00:00.000Z" [] c4Req).fst
        = ⟨201, .createdBody "Rating submitted successfully"
            (mkItem "2024-01-01T00:00:00.000Z" (effIp c4Req) c4Req).timestamp
            (mkItem "2024-01-01T00:00:00.000Z" (effIp c4Req) c4Req).channelId⟩ :=
  c4_valid_submission_stored "2024-01-01T00:00:00.000Z" [] c4Req 5
    (by decide) rfl (by norm_num [c4Req]) (by norm_num) (by norm_num) (by decide)

/-- C10: the duplicate-rating guard uses exact, case-sensitive string
equality on the raw stored email: the record stores the submitted email
unchanged, the already-rated rejection fires exactly when a record with
the identical email string exists for the creator, and the same mailbox
written with different capitalization is accepted twice. -/
theorem c10_email_case_sensitive :
    (∀ (now ip : String) (req : PostRequest), (mkItem now ip req).email = req.email)
    ∧ (∀ (now : String) (store : List RatingItem) (req : PostRequest),
        req.channelId ≠ "" → ratingInvalid req.rating = false → req.email ≠ "" →
        emailValidationStep req.email = none →
        ((handlePostRating honestEnv now store req).fst
            = ⟨400, .errBody "You have already rated this channel"
                (some "Each email can only submit one rating per channel")⟩
          ↔ dupEmailMatches store req.channelId req.email ≠ []))
    ∧ ((handlePostRating honestEnv "t1" [] c10ReqUpper).fst.statusCode = 201
       ∧ (handlePostRating honestEnv "t2"
           (handlePostRating honestEnv "t1" [] c10ReqUpper).snd
           c10ReqLower).fst.statusCode = 201) := by
  refine ⟨fun now ip req => mkItem_email now ip req, ?_, by decide, by decide⟩
  intro now store req hcid hr hne hok
  rw [handlePost_email now store req hne hcid hr hok]
  by_cases hdup : dupEmailMatches store req.channelId req.email = []
  · have hd : (dupEmailMatches store req.channelId req.email).isEmpty = true := by
      simp [hdup]
    simp only [hd, Bool.not_true, Bool.false_eq_true, if_false, apply_ite Prod.fst]
    split_ifs <;> simp [hdup]
  · have hd : (dupEmailMatches store req.channelId req.email).isEmpty = false := by
      simpa [List.isEmpty_iff] using hdup
    simp [hd, hdup]

/-- C10 witness: the exact-match characterisation applied to a store
holding the upper-case submission while the request carries the lower-case
email. -/
theorem c10_email_case_sensitive_witness :
    (handlePostRating honestEnv "t2" [mkItem "t1" "9.8.7.6" c10ReqUpper]
        c10ReqLower).fst
        = ⟨400, .errBody "You have already rated this channel"
            (some "Each email can only submit one rating per channel")⟩
      ↔ dupEmailMatches [mkItem "t1" "9.8.7.6" c10ReqUpper]
          c10ReqLower.channelId c10ReqLower.email ≠ [] :=
  c10_email_case_sensitive.2.1 "t2" [mkItem "t1" "9.8.7.6" c10ReqUpper]
    c10ReqLower (by decide) (by decide) (by decide) (by decide)

/-- C5: counterexample.  For the well-formed email `a@contest.ac.uk` the
root label `contest` does not equal any disposable marker after digit
stripping, so by the claim this rule must not fire; but the code also
tests substring containment, `contest` contains `test`, and the email is
rejected by the disposable-marker rule with status 400. -/
theorem c5_counterexample :
    validateEmail "a@contest.ac.uk" = EmailCheck.fakePattern
    ∧ stripDigits (domainRootLabel (emailDomain "a@contest.ac.uk")) ∉ fakeDomainPatterns
    ∧ (handlePostRating honestEnv "t0" [] c5Req).fst.statusCode = 400 := by
  decide

/-- C5 (amended): for every well-formed email, the disposable-marker
rejection fires exactly when the domain's root label contains one of
{test, example, fake, lol, temp} as a substring, or equals one of them
after stripping digits. -/
theorem c5_fake_pattern_rule (e : String) (hshape : emailRegexTest e = true) :
    validateEmail e = EmailCheck.fakePattern
      ↔ ∃ p ∈ fakeDomainPatterns,
          jsIncludes (domainRootLabel (emailDomain e)) p = true
          ∨ stripDigits (domainRootLabel (emailDomain e)) = p := by
  have hhit : fakePatternHit (emailDomain e) = true
      ↔ ∃ p ∈ fakeDomainPatterns,
          jsIncludes (domainRootLabel (emailDomain e)) p = true
          ∨ stripDigits (domainRootLabel (emailDomain e)) = p := by
    simp [fakePatternHit, List.any_eq_true, Bool.or_eq_true, beq_iff_eq]
  rw [← hhit]
  unfold validateEmail classifyDomain
  simp only [hshape, if_true]
  by_cases h : fakePatternHit (emailDomain e) = true
  · simp [h]
  · simp only [Bool.not_eq_true] at h
    simp only [h, Bool.false_eq_true, if_false]
    split_ifs <;> simp

/-- C5 witness: the amended rule applied to `a@test1.com`, whose root
label `test1` contains the marker `test`. -/
theorem c5_fake_pattern_rule_witness :
    validateEmail "a@test1.com" = EmailCheck.fakePattern :=
  (c5_fake_pattern_rule "a@test1.com" (by decide)).mpr
    ⟨"test", by decide, Or.inl (by decide)⟩

/-- C8: a store error during the duplicate-email lookup or the per-IP
rate-limit lookup is swallowed: the response is exactly the one produced
when those lookups find no matching records (an empty store), and the new
store is either unchanged (a validation rejection) or the old store with
the new record appended, so the failure is never surfaced and never blocks
an otherwise valid submission. -/
theorem c8_lookup_failures_swallowed (now : String) (store : List RatingItem)
    (req : PostRequest) :
    (handlePostRating ⟨true, true, false⟩ now store req).fst
        = (handlePostRating honestEnv now [] req).fst
      ∧ ((handlePostRating ⟨true, true, false⟩ now store req).snd = store
        ∨ (handlePostRating ⟨true, true, false⟩ now store req).snd
            = store ++ [mkItem now (effIp req) req]) := by
  unfold handlePostRating honestEnv
  by_cases hc : req.channelId == ""
  · simp [hc]
  · by_cases hr : ratingInvalid req.rating
    · simp [hc, hr]
    · cases he : emailValidationStep req.email with
      | some r => simp [hc, hr, he]
      | none => simp [hc, hr, he, dupEmailMatches, ipMatches]

/-- C6: counterexample.  Twenty records, thirteen 4s and seven 5s, have
true mean 87/20 = 4.35; the nearest binary64 to 4.35 lies just below it,
so the code reports 4.3, while the true mean rounded half away from zero
is 4.4.  The reported average therefore differs from the claimed value at
this store content. -/
theorem c6_counterexample :
    reportedAverage c6Items20
        ≠ some (roundHalfAwayFromZero1
            (jsDiv (totalOf c6Items20) (c6Items20.length : ℚ)))
    ∧ reportedAverage c6Items20 = some (mkRat 43 10)
    ∧ roundHalfAwayFromZero1 (jsDiv (totalOf c6Items20) (c6Items20.length : ℚ))
        = mkRat 44 10 := by
  decide

/-- C6 (amended): the reported average is the true mean first rounded to
the nearest binary64 (the double quotient the code computes) and then
rounded to one decimal place, half away from zero, at the display step;
the particular instances hold: scores [5,4,3] report 4.0 and [5,5,4]
report 4.7 — but a true mean of 4.35 displays as 4.3, not 4.4. -/
theorem c6_average_display :
    (∀ items : List RatingItem, items ≠ [] → (∀ it ∈ items, 0 ≤ it.rating) →
        reportedAverage items
          = some (roundHalfAwayFromZero1 (roundToDouble
              ((items.map (fun it => it.rating)).sum / (items.length : ℚ)))))
    ∧ reportedAverage c6Items543 = some 4
    ∧ reportedAverage c6Items554 = some (mkRat 47 10) := by
  refine ⟨?_, by decide, by decide⟩
  intro items hne h
  have hlen : 0 < items.length := List.length_pos.mpr hne
  have hsum : 0 ≤ (items.map (fun it => it.rating)).sum := by
    refine List.sum_nonneg ?_
    intro x hx
    obtain ⟨it, hit, rfl⟩ := List.mem_map.mp hx
    exact h it hit
  have hmean : 0 ≤ (items.map (fun it => it.rating)).sum / (items.length : ℚ) :=
    div_nonneg hsum (Nat.cast_nonneg _)
  have hd : 0 ≤ roundToDouble
      ((items.map (fun it => it.rating)).sum / (items.length : ℚ)) :=
    roundToDouble_nonneg _ hmean
  unfold reportedAverage
  rw [if_pos hlen, jsDiv_eq_div, totalOf_eq_sum, jsToFixed1_eq_roundHalfAway _ hd]

/-- C6 witness: the display theorem applied to the records with scores
5, 4, 3. -/
theorem c6_average_display_witness :
    reportedAverage c6Items543
      = some (roundHalfAwayFromZero1 (roundToDouble
          ((c6Items543.map (fun it => it.rating)).sum / (c6Items543.length : ℚ)))) :=
  c6_average_display.1 c6Items543 (by decide) (by decide)

/-- C7: counterexample.  On the page `c7Items`, creator B (grouped first)
has true mean 17/4 and creator A has true mean 13/3; both display as 4.3.
The code sorts by the rounded average, so the stable sort keeps B before
A, while the procedure of the claim (sort by the true mean, rounding only
at display) puts A first: the result is not obtained by the claimed
procedure. -/
theorem c7_counterexample :
    (getTopCreators c7Items 10 1).map (fun c => c.channelId) = ["B", "A"]
    ∧ (specTopCreators c7Items 10 1).map (fun c => c.channelId) = ["A", "B"] := by
  decide

/-- C7 (amended): the top-creators result groups by creator, removes the
creators under the `minRatings` threshold, sorts descending by the
averageRating rounded to one decimal (the rounding happens before the
sort, ties keep grouping order) and takes the first `limit` entries; with
counts A:3 and B:1 and `minRatings = 2`, only A appears regardless of
scores. -/
theorem c7_top_creators :
    (∀ (items : List ScanItem) (limit minR : Nat),
        (getTopCreators items limit minR).length ≤ limit
        ∧ List.Sorted outDesc (getTopCreators items limit minR)
        ∧ ∀ c ∈ getTopCreators items limit minR, minR ≤ c.totalRatings)
    ∧ (∀ a1 a2 a3 b1 : ℚ,
        (getTopCreators
          [ScanItem.mk "A" "" "" a1, ScanItem.mk "A" "" "" a2,
           ScanItem.mk "A" "" "" a3, ScanItem.mk "B" "" "" b1] 10 2).map
          (fun c => c.channelId) = ["A"]) := by
  constructor
  · intro items limit minR
    refine ⟨?_, ?_, ?_⟩
    · unfold getTopCreators
      rw [List.length_take]
      exact min_le_left _ _
    · exact List.Pairwise.sublist (List.take_sublist _ _)
        (List.sorted_insertionSort outDesc _)
    · intro c hc
      unfold getTopCreators at hc
      have hc2 := List.take_subset _ _ hc
      rw [List.mem_insertionSort] at hc2
      obtain ⟨g, hg, rfl⟩ := List.mem_map.mp hc2
      have hgf := (List.mem_filter.mp hg).2
      simpa [mkCreatorOut] using hgf
  · intro a1 a2 a3 b1
    rfl

/-- C7 witness: the amended theorem applied to the page with three records
for A and one for B at threshold 2. -/
theorem c7_top_creators_witness :
    (getTopCreators c7CountsItems 10 2).length ≤ 10
    ∧ (getTopCreators c7CountsItems 10 2).map (fun c => c.channelId) = ["A"] :=
  ⟨(c7_top_creators.1 c7CountsItems 10 2).1, c7_top_creators.2 5 4 3 5⟩

/-- C9: the effective recent-ratings limit is 3 when absent and falls back
to 3 for any requested value outside [1,100]; the response holds at most
`limit` ratings, sorted by timestamp descending (for records with
timestamps present). -/
theorem c9_recent_ratings :
    effectiveLimit none = 3
    ∧ (∀ v : Int, v < 1 ∨ 100 < v → effectiveLimit (some v) = 3)
    ∧ (∀ (items : List RatingItem) (limit : Nat),
        ((getRecentRatings items limit).ratings).length ≤ limit)
    ∧ (∀ (items : List RatingItem) (limit : Nat),
        (∀ it ∈ items, it.timestamp ≠ "") →
        List.Pairwise (fun a b : RecentOut => b.timestamp ≤ a.timestamp)
          ((getRecentRatings items limit).ratings)) := by
  refine ⟨rfl, ?_, ?_, ?_⟩
  · intro v hv
    by_cases h0 : v = 0
    · subst h0
      decide
    · have h0b : (v == 0) = false := by
        simpa using h0
      have hrange : (decide (v < 1) || decide (100 < v)) = true := by
        rcases hv with h | h <;> simp [h]
      simp only [effectiveLimit, h0b, Bool.false_eq_true, if_false]
      simp [hrange]
  · intro items limit
    unfold getRecentRatings
    by_cases hemp : (items.length == 0) = true
    · simp [hemp]
    · simp only [hemp, Bool.false_eq_true, if_false]
      simp [List.length_take]
  · intro items limit hts
    unfold getRecentRatings
    by_cases hemp : (items.length == 0) = true
    · simp [hemp]
    · simp only [hemp, Bool.false_eq_true, if_false]
      have hsorted : List.Pairwise recentDesc (items.insertionSort recentDesc) :=
        List.sorted_insertionSort recentDesc items
      have htake : List.Pairwise recentDesc
          ((items.insertionSort recentDesc).take limit) :=
        List.Pairwise.sublist (List.take_sublist _ _) hsorted
      have hmem : ∀ it ∈ (items.insertionSort recentDesc).take limit,
          it.timestamp ≠ "" := by
        intro it hit
        have hin := List.take_subset _ _ hit
        rw [List.mem_insertionSort] at hin
        exact hts it hin
      have hpair : List.Pairwise (fun a b : RatingItem => b.timestamp ≤ a.timestamp)
          ((items.insertionSort recentDesc).take limit) := by
        refine List.Pairwise.imp_of_mem ?_ htake
        intro a b ha hb hr
        have ha2 : tsKey a = a.timestamp := by
          rw [tsKey, strOr, if_neg (hmem a ha)]
        have hb2 : tsKey b = b.timestamp := by
          rw [tsKey, strOr, if_neg (hmem b hb)]
        rw [recentDesc, ha2, hb2] at hr
        exact hr
      refine List.Pairwise.map cleanRecent ?_ hpair
      intro a b hab
      simpa [cleanRecent, strOr_empty] using hab

/-- C9 witness: fallback at the out-of-range request 101 and sortedness on
a concrete page with limit 2. -/
theorem c9_recent_ratings_witness :
    effectiveLimit (some 101) = 3
    ∧ List.Pairwise (fun a b : RecentOut => b.timestamp ≤ a.timestamp)
        ((getRecentRatings c9Items 2).ratings) :=
  ⟨c9_recent_ratings.2.1 101 (Or.inr (by norm_num)),
   c9_recent_ratings.2.2.2 c9Items 2 (by decide)⟩

end YouRate
